import Mathlib

/-! Shallow embedding of src/data.ts from the ear-violator-9000 repository,
with theorems checking the specification's claims against the code. -/

/-- A JS object used as a string-keyed table (src/data.ts stores users,
aliases and cooldowns in plain objects). Modelled extensionally. -/
def Table (V : Type) : Type := String → Option V

/-- The empty object. -/
def Table.empty {V : Type} : Table V := fun _ => none

/-- Spread update: the object with key k bound to v and all other keys
unchanged. Models the JS spread pattern that copies v and overrides key k. -/
def Table.set {V : Type} (m : Table V) (k : String) (v : V) : Table V :=
  fun q => if q = k then some v else m q

/-- Key removal. Models the JS delete operator applied to a copied object. -/
def Table.del {V : Type} (m : Table V) (k : String) : Table V :=
  fun q => if q = k then none else m q

/-- Cooldown record, data.ts line 61: milliseconds per user and per sound. -/
structure CooldownRecord where
  perUser : Nat
  perSound : Nat
  deriving DecidableEq

/-- The two cooldown presets built by _cooldownPreset, data.ts line 217:
which = "user" selects perUser as primary field, which = "sound" selects
perSound as primary field. -/
inductive Which
  | user
  | sound
  deriving DecidableEq

/-- Alias resolution as performed at data.ts lines 227 and 249:
if name is a key of the alias table, replace it by the mapped value.
Note: these call sites do not lowercase name first. -/
def resolveNoLower (al : Table String) (name : String) : String :=
  match al name with
  | some canon => canon
  | none => name

/-- The record built by the cooldown set handler, data.ts lines 230-239:
the primary field is set to millis and the secondary field is assigned
the expression from line 237, which reads perSound of the old record
(defaulting to 0) for BOTH presets. -/
def setRecord (which : Which) (millis : Nat) (old : Option CooldownRecord) :
    CooldownRecord :=
  match which with
  | .user => { perUser := millis, perSound := (old.map CooldownRecord.perSound).getD 0 }
  | .sound => { perSound := millis, perUser := (old.map CooldownRecord.perSound).getD 0 }

/-- The record after the cooldown rm handler zeroes the selected field,
data.ts line 255. -/
def clearField (which : Which) (r : CooldownRecord) : CooldownRecord :=
  match which with
  | .user => { r with perUser := 0 }
  | .sound => { r with perSound := 0 }

/-- Field projection by preset selector. -/
def whichField (which : Which) (r : CooldownRecord) : Nat :=
  match which with
  | .user => r.perUser
  | .sound => r.perSound

/-- The selector of the other field. -/
def otherOf (which : Which) : Which :=
  match which with
  | .user => .sound
  | .sound => .user

/-- Cooldown set operation, data.ts lines 222-241: resolve the alias
(line 227), return the table unchanged if the resolved name is not a known
sound (line 228), otherwise bind the resolved name to the record of
lines 232-238. -/
def cooldownSet (sounds : String → Bool) (al : Table String)
    (cd : Table CooldownRecord) (which : Which) (name : String)
    (millis : Nat) : Table CooldownRecord :=
  let n := resolveNoLower al name
  if sounds n then cd.set n (setRecord which millis (cd n)) else cd

/-- Cooldown rm operation, data.ts lines 245-263: resolve the alias
(line 249), return the table unchanged if the resolved name is not a known
sound (line 250) or has no record (line 251); otherwise zero the selected
field (line 255) and delete the key when both fields are 0 (lines 257-259). -/
def cooldownRm (sounds : String → Bool) (al : Table String)
    (cd : Table CooldownRecord) (which : Which) (name : String) :
    Table CooldownRecord :=
  let n := resolveNoLower al name
  if sounds n then
    match cd n with
    | none => cd
    | some r =>
      let cleared := clearField which r
      if cleared.perSound = 0 ∧ cleared.perUser = 0 then cd.del n
      else cd.set n cleared
  else cd

/-- Spec section 3 invariant on the cooldown table: a sound is a key only
if at least one of its two fields is nonzero. -/
def cooldownInv (cd : Table CooldownRecord) : Prop :=
  ∀ n r, cd n = some r → r.perUser ≠ 0 ∨ r.perSound ≠ 0

/-- Concrete sound set with the single sound foo. -/
def soundsFoo : String → Bool := fun s => s == "foo"

/-- Concrete empty alias table. -/
def alEmpty : Table String := Table.empty

/-- Concrete cooldown table binding foo to perUser = 5, perSound = 0. -/
def cdFoo : Table CooldownRecord := Table.set Table.empty "foo" (CooldownRecord.mk 5 0)

/-- ASCII model of the JS toLowerCase calls at data.ts lines 83, 112,
162, 163 and 182. -/
def lowerStr (s : String) : String := String.mk (s.data.map Char.toLower)

/-- Modelled from the spec: capitalize from src/core/util (file not under
src/); spec section 4.1 words the normalization as capitalize first
letter, lowercase rest. -/
def capitalize (s : String) : String :=
  match s.data with
  | [] => s
  | c :: cs => String.mk (Char.toUpper c :: cs.map Char.toLower)

/-- The JS whitespace code points trimmed by Number(string). -/
def jsWhitespace (c : Char) : Bool :=
  [9, 10, 11, 12, 13, 32, 160, 8232, 8233, 65279].contains c.toNat

/-- Trim JS whitespace from both ends. -/
def trimJS (l : List Char) : List Char :=
  ((l.dropWhile jsWhitespace).reverse.dropWhile jsWhitespace).reverse

/-- Hexadecimal digit. -/
def hexDigitB (c : Char) : Bool :=
  c.isDigit || (('a' ≤ c && c ≤ 'f') || ('A' ≤ c && c ≤ 'F'))

/-- Octal digit. -/
def octDigitB (c : Char) : Bool := '0' ≤ c && c ≤ '7'

/-- Binary digit. -/
def binDigitB (c : Char) : Bool := c == '0' || c == '1'

/-- Mantissa of a JS decimal literal: only digits and dots, at most one
dot, at least one digit. -/
def isMantissa (l : List Char) : Bool :=
  l.any Char.isDigit && l.all (fun c => c.isDigit || c == '.') &&
    decide ((l.filter (fun c => c == '.')).length ≤ 1)

/-- Optionally signed nonempty digit run (body of a JS exponent part). -/
def isSignedDigits (l : List Char) : Bool :=
  match l with
  | '+' :: ds => !ds.isEmpty && ds.all Char.isDigit
  | '-' :: ds => !ds.isEmpty && ds.all Char.isDigit
  | ds => !ds.isEmpty && ds.all Char.isDigit

/-- Unsigned JS decimal literal with optional exponent part. -/
def isDecLit (l : List Char) : Bool :=
  match l.span (fun c => c.isDigit || c == '.') with
  | (m, []) => isMantissa m
  | (m, e :: rest) => (e == 'e' || e == 'E') && isMantissa m && isSignedDigits rest

/-- Unsigned JS decimal literal or Infinity. -/
def isUnsignedJSNum (l : List Char) : Bool :=
  l == "Infinity".data || isDecLit l

/-- ECMA StringNumericLiteral body after trimming: optionally signed
decimal literal or Infinity, or unsigned hex, octal or binary literal. -/
def isStrNumericLiteral (l : List Char) : Bool :=
  match l with
  | '+' :: rest => isUnsignedJSNum rest
  | '-' :: rest => isUnsignedJSNum rest
  | '0' :: c :: rest =>
    if c == 'x' || c == 'X' then !rest.isEmpty && rest.all hexDigitB
    else if c == 'o' || c == 'O' then !rest.isEmpty && rest.all octDigitB
    else if c == 'b' || c == 'B' then !rest.isEmpty && rest.all binDigitB
    else isUnsignedJSNum l
  | _ => isUnsignedJSNum l

/-- Model of the guard at data.ts line 110: true exactly when JS
Number(role) is not NaN, that is when the trimmed string is empty or a
numeric literal. -/
def jsNumberNotNaN (s : String) : Bool :=
  let t := trimJS s.data
  t.isEmpty || isStrNumericLiteral t

/-- A value stored in the TS numeric enum object Role (data.ts lines
17-22): the four name keys map to numbers, and the TS reverse mapping
adds four numeric keys mapping to name strings. -/
inductive EnumVal
  | num (n : Nat)
  | str (s : String)
  deriving DecidableEq

/-- The enum object Role as a key-value table, reverse-mapping keys
included. -/
def roleEnum : Table EnumVal := fun k =>
  if k = "None" then some (.num 0)
  else if k = "User" then some (.num 1)
  else if k = "Editor" then some (.num 2)
  else if k = "Streamer" then some (.num 3)
  else if k = "0" then some (.str "None")
  else if k = "1" then some (.str "User")
  else if k = "2" then some (.str "Editor")
  else if k = "3" then some (.str "Streamer")
  else none

/-- The four symbolic role names (data.ts line 23 filters the numeric
keys out of the enum object). -/
def roleNames : List String := ["None", "User", "Editor", "Streamer"]

/-- Rank of a symbolic role name. -/
def roleRank (k : String) : Nat :=
  if k = "User" then 1 else if k = "Editor" then 2
  else if k = "Streamer" then 3 else 0

/-- A user record, data.ts lines 24-27; the role field holds whatever the
enum object lookup returned. -/
structure UserRec where
  name : String
  role : EnumVal
  deriving DecidableEq

/-- The five persistent stores of data.ts lines 67-73 as one state value:
pfx is the store registered under the name starting the command text,
autoplay is the single preferences field. -/
structure Stores where
  pfx : String
  users : Table UserRec
  autoplay : Bool
  aliases : Table String
  cooldowns : Table CooldownRecord

/-- The role command handler, data.ts lines 106-126: reject numeric input
(line 110), normalize (line 112), update the users store when the
normalized name is a key of the enum object (lines 113-121), and log
after the check regardless of its outcome (line 122). Returns the new
stores and the emitted log lines. -/
def roleHandle (st : Stores) (userName name role : String) : Stores × List String :=
  if jsNumberNotNaN role then (st, [])
  else
    let norm := capitalize (lowerStr role)
    let st' :=
      match roleEnum norm with
      | some v => { st with users := st.users.set name { name := name, role := v } }
      | none => st
    (st', [userName ++ " set role of " ++ name ++ " to " ++ norm])

/-- The prefs command handler, data.ts lines 128-150: when the key is a
key of the preferences object (only autoplay exists), apply the keyword
switch of lines 133-147 and log the resulting value (line 148, emitted
even when no keyword matched); otherwise do nothing. -/
def prefsHandle (st : Stores) (userName key value : String) : Stores × List String :=
  if key = "autoplay" then
    let st' :=
      if value = "toggle" then { st with autoplay := !st.autoplay }
      else if value = "on" ∨ value = "true" ∨ value = "yes" then
        { st with autoplay := true }
      else if value = "off" ∨ value = "false" ∨ value = "no" then
        { st with autoplay := false }
      else st
    (st', ["Updated preference " ++ key ++ " to " ++
      (if st'.autoplay then "true" else "false")])
  else (st, [])

/-- The alias set handler, data.ts lines 159-178: lowercase both names,
return early when the target is not a known sound (line 164), else update
the aliases store and log. -/
def aliasSetHandle (sounds : String → Bool) (st : Stores)
    (userName name target : String) : Stores × List String :=
  let n := lowerStr name
  let t := lowerStr target
  if sounds t then
    let word := if (st.aliases n).isSome then "updated" else "added"
    ({ st with aliases := st.aliases.set n t },
     [userName ++ " " ++ word ++ " an alias: " ++ n ++ " -> " ++ t])
  else (st, [])

/-- The alias rm handler, data.ts lines 179-192: lowercase the name,
delete it from the aliases store, and log unconditionally (line 188). -/
def aliasRmHandle (st : Stores) (userName name : String) : Stores × List String :=
  let n := lowerStr name
  ({ st with aliases := st.aliases.del n }, [userName ++ " removed an alias: " ++ n])

/-- JS String.split with separator a single space, on char lists:
consecutive separators produce empty parts and the result is never
empty. -/
def splitOnSpace : List Char → List (List Char)
  | [] => [[]]
  | c :: rest =>
    let r := splitOnSpace rest
    if c = ' ' then [] :: r
    else (c :: r.headD []) :: r.tail

/-- Millisecond factor of a duration unit abbreviation. -/
def unitFactor (u : String) : Option Nat :=
  if u = "d" then some 86400000
  else if u = "h" then some 3600000
  else if u = "m" then some 60000
  else if u = "s" then some 1000
  else if u = "ms" then some 1
  else none

/-- Numeric value of a digit run. -/
def digitsVal (ds : List Char) : Nat :=
  ds.foldl (fun acc c => acc * 10 + (c.toNat - 48)) 0

/-- Modelled from the spec: one token of parseDuration (src/core/duration,
file not under src/): an integer followed by a unit abbreviation, with
malformed tokens contributing 0 (spec section 4.5). -/
def parseTok (t : String) : Nat :=
  let ds := t.data.takeWhile Char.isDigit
  let rest := t.data.dropWhile Char.isDigit
  if ds.isEmpty then 0
  else
    match unitFactor (String.mk rest) with
    | some f => digitsVal ds * f
    | none => 0

/-- Modelled from the spec: parseDuration (src/core/duration, file not
under src/): whitespace-separated integer-unit tokens summed into a
millisecond total, malformed tokens ignored (spec section 4.5). -/
def parseDuration (s : String) : Nat :=
  ((splitOnSpace s.data).map (fun t => parseTok (String.mk t))).sum

/-- The cooldown set leaf handler, data.ts lines 222-244, as the table
update plus its log lines: the log of line 240 is emitted exactly when
the sound check of line 228 passes, and names the resolved sound and the
raw value string. -/
def cooldownSetHandle (sounds : String → Bool) (al : Table String)
    (cd : Table CooldownRecord) (which : Which) (userName name value : String) :
    Table CooldownRecord × List String :=
  (cooldownSet sounds al cd which name (parseDuration value),
   if sounds (resolveNoLower al name) then
     [userName ++ " set cooldown of " ++ resolveNoLower al name ++ " to " ++ value]
   else [])

/-- The cooldown rm leaf handler, data.ts lines 245-266, as the table
update plus its log lines: the log of line 262 is emitted exactly when
both the sound check and the record check pass. -/
def cooldownRmHandle (sounds : String → Bool) (al : Table String)
    (cd : Table CooldownRecord) (which : Which) (userName name : String) :
    Table CooldownRecord × List String :=
  (cooldownRm sounds al cd which name,
   if sounds (resolveNoLower al name) ∧ (cd (resolveNoLower al name)).isSome then
     [userName ++ " removed cooldown of " ++ resolveNoLower al name]
   else [])

/-- Modelled from the spec: Player (src/core/player, file not under src/):
playing is the currently playing sound name or none (spec section 6);
play makes its argument the playing sound and stop clears it (busy flag,
spec section 5). -/
structure PlayerState where
  playing : Option String
  deriving DecidableEq

/-- Argument normalization of the play handler, data.ts line 83:
lowercase and keep the first space-separated part. -/
def firstToken (s : String) : String :=
  String.mk ((splitOnSpace (lowerStr s).data).headD [])

/-- The play handler, data.ts lines 78-93: ignore the request while a
sound is playing (line 81), else normalize (line 83), resolve the alias
(line 85), and when the result is a known sound log it and play it.
Returns the new player state, the log lines, and the Player.play calls. -/
def playHandle (sounds : String → Bool) (al : Table String) (ps : PlayerState)
    (userName arg : String) : PlayerState × List String × List (String × String) :=
  if ps.playing.isSome then (ps, [], [])
  else
    let sound := resolveNoLower al (firstToken arg)
    if sounds sound then
      ({ playing := some sound }, [userName ++ " played " ++ sound], [(sound, userName)])
    else (ps, [], [])

/-- The stop handler, data.ts lines 95-104: ignore the request while
nothing is playing (line 98), else log and stop. The Bool records whether
Player.stop was called. -/
def stopHandle (ps : PlayerState) (userName : String) :
    PlayerState × List String × Bool :=
  match ps.playing with
  | none => (ps, [], false)
  | some s => ({ playing := none }, [userName ++ " stopped " ++ s], true)

/-- A sequence of play requests processed by the play handler, counting
the Player.play calls made along the way. -/
def runPlays (sounds : String → Bool) (al : Table String) :
    PlayerState → List (String × String) → PlayerState × Nat
  | ps, [] => (ps, 0)
  | ps, (u, a) :: rest =>
    let step := playHandle sounds al ps u a
    let next := runPlays sounds al step.1 rest
    (next.1, step.2.2.length + next.2)

/-- JS truthiness of the optional channel string at data.ts line 13:
undefined and the empty string are falsy. -/
def jsTruthyStr (base : Option String) : Bool :=
  match base with
  | none => false
  | some s => !s.isEmpty

/-- The storeKey helper, data.ts lines 12-13. -/
def storeKey (key : String) (base : Option String) : String :=
  if jsTruthyStr base then key ++ "." ++ base.getD "" else "[[empty]]"

/-- Key of the command-marker store, data.ts line 15. -/
def pfxStoreKey (channel : Option String) : String := storeKey "prefix" channel

/-- Key of the users store, data.ts line 29. -/
def usersStoreKey (channel : Option String) : String := storeKey "users" channel

/-- Key of the preferences store, data.ts line 48. -/
def prefsStoreKey (channel : Option String) : String := storeKey "preferences" channel

/-- Key of the aliases store, data.ts line 56. -/
def aliasesStoreKey (channel : Option String) : String := storeKey "aliases" channel

/-- Key of the cooldowns store, data.ts line 63. -/
def cooldownsStoreKey (channel : Option String) : String := storeKey "cooldowns" channel

/-- Alias resolution as worded by the spec, section 4.3: lowercase the
name, then look it up, returning the name unchanged when absent. Stated
for comparison with the resolution the code performs at each call site. -/
def resolveSpec (al : Table String) (name : String) : String :=
  resolveNoLower al (lowerStr name)

/-- Concrete alias table mapping sss to foo. -/
def al1 : Table String := Table.set Table.empty "sss" "foo"

/-- Concrete initial stores value. -/
def st0 : Stores :=
  { pfx := "!xd", users := Table.empty, autoplay := false,
    aliases := Table.empty, cooldowns := Table.empty }

/-- C1: on an empty table, setting perUser to 5000 and then perSound to 3000
for the sound foo does NOT yield the record claimed by the spec: line 237
reads the old perSound for the secondary field of both presets, so the
second set overwrites perUser with the old perSound value 0. The result is
perUser = 0, perSound = 3000 instead of perUser = 5000, perSound = 3000. -/
theorem c1_secondary_field_eval :
    cooldownSet soundsFoo alEmpty
      (cooldownSet soundsFoo alEmpty Table.empty Which.user "foo" 5000)
      Which.sound "foo" 3000 "foo" = some { perUser := 0, perSound := 3000 } ∧
    cooldownSet soundsFoo alEmpty
      (cooldownSet soundsFoo alEmpty Table.empty Which.user "foo" 5000)
      Which.sound "foo" 3000 "foo" ≠ some { perUser := 5000, perSound := 3000 } := by
  constructor
  · decide
  · decide

/-- C2 (counterexample): the empty table satisfies the invariant, yet the
cooldown set operation applied with milliseconds = 0 to a sound with no
prior record produces a record with both fields 0 that stays in the table,
so the invariant is not preserved by every cooldown operation. -/
theorem c2_counterexample :
    cooldownInv Table.empty ∧
    cooldownSet soundsFoo alEmpty Table.empty Which.user "foo" 0 "foo" =
      some { perUser := 0, perSound := 0 } ∧
    ¬ cooldownInv (cooldownSet soundsFoo alEmpty Table.empty Which.user "foo" 0) := by
  refine ⟨?_, by decide, ?_⟩
  · intro n r h
    exact Option.noConfusion h
  · intro h
    have hfoo := h "foo" { perUser := 0, perSound := 0 } (by decide)
    simp at hfoo

/-- C2 (amended): the rm operation always preserves the invariant that a
sound is a key only if one of its fields is nonzero, and the set operation
preserves it whenever the milliseconds argument is nonzero; a set with 0
milliseconds can create an all-zero record. -/
theorem c2_amended_invariant (sounds : String → Bool) (al : Table String)
    (cd : Table CooldownRecord) (which : Which) (name : String) (millis : Nat)
    (hinv : cooldownInv cd) :
    cooldownInv (cooldownRm sounds al cd which name) ∧
    (millis ≠ 0 → cooldownInv (cooldownSet sounds al cd which name millis)) := by
  constructor
  · intro q r h
    by_cases hs : sounds (resolveNoLower al name) = true
    · cases hcd : cd (resolveNoLower al name) with
      | none =>
        rw [cooldownRm] at h
        simp only [hs, if_true, hcd] at h
        exact hinv q r h
      | some r0 =>
        rw [cooldownRm] at h
        simp only [hs, if_true, hcd] at h
        by_cases hz : (clearField which r0).perSound = 0 ∧ (clearField which r0).perUser = 0
        · rw [if_pos hz] at h
          rw [Table.del] at h
          by_cases hq : q = resolveNoLower al name
          · rw [if_pos hq] at h
            exact Option.noConfusion h
          · rw [if_neg hq] at h
            exact hinv q r h
        · rw [if_neg hz] at h
          rw [Table.set] at h
          by_cases hq : q = resolveNoLower al name
          · rw [if_pos hq] at h
            have hr : r = clearField which r0 := (Option.some.injEq _ _).mp h.symm
            subst hr
            rcases Decidable.not_and_iff_or_not.mp hz with h1 | h1
            · exact Or.inr h1
            · exact Or.inl h1
          · rw [if_neg hq] at h
            exact hinv q r h
    · simp only [Bool.not_eq_true] at hs
      rw [cooldownRm] at h
      simp only [hs, Bool.false_eq_true, if_false] at h
      exact hinv q r h
  · intro hm q r h
    rw [cooldownSet] at h
    by_cases hs : sounds (resolveNoLower al name) = true
    · simp only [hs, if_true] at h
      rw [Table.set] at h
      by_cases hq : q = resolveNoLower al name
      · rw [if_pos hq] at h
        have hr : r = setRecord which millis (cd (resolveNoLower al name)) :=
          (Option.some.injEq _ _).mp h.symm
        subst hr
        cases which with
        | user => exact Or.inl hm
        | sound => exact Or.inr hm
      · rw [if_neg hq] at h
        exact hinv q r h
    · simp only [Bool.not_eq_true] at hs
      simp only [hs, Bool.false_eq_true, if_false] at h
      exact hinv q r h

/-- C2 (witness for the amended theorem): instantiated on the concrete
table binding foo to perUser = 5, perSound = 0, which satisfies the
invariant, with milliseconds 7. -/
theorem c2_amended_invariant_witness :
    cooldownInv cdFoo ∧ (7 ≠ 0) ∧
    cooldownInv (cooldownRm soundsFoo alEmpty cdFoo Which.user "foo") ∧
    cooldownInv (cooldownSet soundsFoo alEmpty cdFoo Which.sound "foo" 7) := by
  have hinv : cooldownInv cdFoo := by
    intro q r h
    rw [cdFoo, Table.set] at h
    by_cases hq : q = "foo"
    · rw [if_pos hq] at h
      have hr : r = CooldownRecord.mk 5 0 := (Option.some.injEq _ _).mp h.symm
      subst hr
      exact Or.inl (by decide)
    · rw [if_neg hq] at h
      exact Option.noConfusion h
  have hmain := c2_amended_invariant soundsFoo alEmpty cdFoo Which.user "foo" 7 hinv
  have hmain2 := c2_amended_invariant soundsFoo alEmpty cdFoo Which.sound "foo" 7 hinv
  exact ⟨hinv, by decide, hmain.1, hmain2.2 (by decide)⟩

/-- C4: for a known sound with an existing record, the rm operation zeroes
the selected field, preserves the other field, deletes the key entirely
when the other field was already 0, and keeps the key bound to the cleared
record when the other field is nonzero. -/
theorem c4_rm_clears_and_deletes (sounds : String → Bool) (al : Table String)
    (cd : Table CooldownRecord) (which : Which) (name : String) (r : CooldownRecord)
    (hs : sounds (resolveNoLower al name) = true)
    (hr : cd (resolveNoLower al name) = some r) :
    whichField which (clearField which r) = 0 ∧
    whichField (otherOf which) (clearField which r) = whichField (otherOf which) r ∧
    (whichField (otherOf which) r = 0 →
      cooldownRm sounds al cd which name (resolveNoLower al name) = none) ∧
    (whichField (otherOf which) r ≠ 0 →
      cooldownRm sounds al cd which name (resolveNoLower al name) =
        some (clearField which r)) := by
  cases which with
  | user =>
    refine ⟨rfl, rfl, ?_, ?_⟩
    · intro h0
      rw [cooldownRm]
      simp only [hs, if_true, hr]
      have hz : (clearField Which.user r).perSound = 0 ∧
          (clearField Which.user r).perUser = 0 := ⟨h0, rfl⟩
      rw [if_pos hz, Table.del, if_pos rfl]
    · intro h0
      rw [cooldownRm]
      simp only [hs, if_true, hr]
      have hz : ¬((clearField Which.user r).perSound = 0 ∧
          (clearField Which.user r).perUser = 0) := fun hc => h0 hc.1
      rw [if_neg hz, Table.set, if_pos rfl]
  | sound =>
    refine ⟨rfl, rfl, ?_, ?_⟩
    · intro h0
      rw [cooldownRm]
      simp only [hs, if_true, hr]
      have hz : (clearField Which.sound r).perSound = 0 ∧
          (clearField Which.sound r).perUser = 0 := ⟨rfl, h0⟩
      rw [if_pos hz, Table.del, if_pos rfl]
    · intro h0
      rw [cooldownRm]
      simp only [hs, if_true, hr]
      have hz : ¬((clearField Which.sound r).perSound = 0 ∧
          (clearField Which.sound r).perUser = 0) := fun hc => h0 hc.2
      rw [if_neg hz, Table.set, if_pos rfl]

/-- C4 (witness): instantiated on the table binding foo to perUser = 5,
perSound = 0, with the perUser preset. -/
theorem c4_witness :
    (soundsFoo (resolveNoLower alEmpty "foo") = true ∧
     cdFoo (resolveNoLower alEmpty "foo") = some (CooldownRecord.mk 5 0)) ∧
    (whichField Which.user (clearField Which.user (CooldownRecord.mk 5 0)) = 0 ∧
     whichField (otherOf Which.user) (clearField Which.user (CooldownRecord.mk 5 0)) =
       whichField (otherOf Which.user) (CooldownRecord.mk 5 0) ∧
     (whichField (otherOf Which.user) (CooldownRecord.mk 5 0) = 0 →
       cooldownRm soundsFoo alEmpty cdFoo Which.user "foo" (resolveNoLower alEmpty "foo") =
         none) ∧
     (whichField (otherOf Which.user) (CooldownRecord.mk 5 0) ≠ 0 →
       cooldownRm soundsFoo alEmpty cdFoo Which.user "foo" (resolveNoLower alEmpty "foo") =
         some (clearField Which.user (CooldownRecord.mk 5 0)))) :=
  ⟨⟨by decide, by decide⟩,
   c4_rm_clears_and_deletes soundsFoo alEmpty cdFoo Which.user "foo"
     (CooldownRecord.mk 5 0) (by decide) (by decide)⟩

/-- C6: both cooldown operations return the table unchanged when the
resolved name is not a known sound, and rm additionally returns the table
unchanged when the resolved sound has no record. -/
theorem c6_unknown_is_noop (sounds : String → Bool) (al : Table String)
    (cd : Table CooldownRecord) (which : Which) (name : String) (millis : Nat) :
    (sounds (resolveNoLower al name) = false →
      cooldownSet sounds al cd which name millis = cd ∧
      cooldownRm sounds al cd which name = cd) ∧
    (cd (resolveNoLower al name) = none →
      cooldownRm sounds al cd which name = cd) := by
  constructor
  · intro h
    constructor
    · rw [cooldownSet]
      simp only [h, Bool.false_eq_true, if_false]
    · rw [cooldownRm]
      simp only [h, Bool.false_eq_true, if_false]
  · intro h
    by_cases hs : sounds (resolveNoLower al name) = true
    · rw [cooldownRm]
      simp only [hs, if_true, h]
    · simp only [Bool.not_eq_true] at hs
      rw [cooldownRm]
      simp only [hs, Bool.false_eq_true, if_false]

/-- C6 (witness): the sound bar is unknown, so set and rm leave the table
unchanged; and foo has no record in the empty table, so rm leaves the empty
table unchanged. -/
theorem c6_witness :
    (soundsFoo (resolveNoLower alEmpty "bar") = false ∧
     cooldownSet soundsFoo alEmpty cdFoo Which.user "bar" 9 = cdFoo ∧
     cooldownRm soundsFoo alEmpty cdFoo Which.user "bar" = cdFoo) ∧
    ((Table.empty : Table CooldownRecord) (resolveNoLower alEmpty "foo") = none ∧
     cooldownRm soundsFoo alEmpty Table.empty Which.sound "foo" = Table.empty) :=
  ⟨⟨by decide,
    ((c6_unknown_is_noop soundsFoo alEmpty cdFoo Which.user "bar" 9).1 (by decide)).1,
    ((c6_unknown_is_noop soundsFoo alEmpty cdFoo Which.user "bar" 9).1 (by decide)).2⟩,
   ⟨by decide,
    (c6_unknown_is_noop soundsFoo alEmpty Table.empty Which.sound "foo" 0).2 (by decide)⟩⟩

/-- Helper: toNat of Char.ofNat at a valid code point. -/
theorem char_toNat_ofNat_valid (n : Nat) (h : n.isValidChar) :
    (Char.ofNat n).toNat = n := by
  rw [Char.ofNat, dif_pos h]
  rfl

/-- Helper: Char.toLower only yields a code point below 65 when it
returned its input unchanged. -/
theorem char_toLower_small (c d : Char) (hd : d.toNat < 65)
    (h : Char.toLower c = d) : c = d := by
  simp only [Char.toLower] at h
  split at h
  · exfalso
    rename_i hc
    have h1 := congrArg Char.toNat h
    rw [char_toNat_ofNat_valid] at h1
    · omega
    · exact Or.inl (by omega)
  · exact h

/-- Helper: Char.toUpper only yields a code point below 65 when it
returned its input unchanged. -/
theorem char_toUpper_small (c d : Char) (hd : d.toNat < 65)
    (h : Char.toUpper c = d) : c = d := by
  simp only [Char.toUpper] at h
  split at h
  · exfalso
    rename_i hc
    have h1 := congrArg Char.toNat h
    rw [char_toNat_ofNat_valid] at h1
    · omega
    · exact Or.inl (by omega)
  · exact h

/-- Helper: if normalizing a string yields one of the numeric enum keys,
the string already was that key. -/
theorem capitalize_lowerStr_digit (s k : String)
    (hk : k = "0" ∨ k = "1" ∨ k = "2" ∨ k = "3")
    (h : capitalize (lowerStr s) = k) : s = k := by
  obtain ⟨d, hd, hdn⟩ : ∃ d : Char, k = String.mk [d] ∧ d.toNat < 65 := by
    rcases hk with rfl | rfl | rfl | rfl
    · exact ⟨'0', rfl, by decide⟩
    · exact ⟨'1', rfl, by decide⟩
    · exact ⟨'2', rfl, by decide⟩
    · exact ⟨'3', rfl, by decide⟩
  subst hd
  obtain ⟨sd⟩ := s
  cases sd with
  | nil =>
    exfalso
    have h2 := congrArg String.data h
    simp [capitalize, lowerStr] at h2
  | cons c cs =>
    simp only [lowerStr, capitalize, List.map_cons] at h
    have hdata : Char.toUpper (Char.toLower c) ::
        List.map Char.toLower (List.map Char.toLower cs) = [d] :=
      congrArg String.data h
    rw [List.cons.injEq] at hdata
    obtain ⟨h1, h2⟩ := hdata
    have hcs : cs = [] := by
      have := List.map_eq_nil_iff.mp (List.map_eq_nil_iff.mp h2)
      exact this
    subst hcs
    have hlc : Char.toLower c = d := char_toUpper_small (Char.toLower c) d hdn h1
    have hc : c = d := char_toLower_small c d hdn hlc
    subst hc
    rfl

/-- C7: the role handler rejects numeric-looking input without touching
the users store, and otherwise matches the case-normalized role name
(first letter capitalized, rest lowercased) against the four symbolic
role names, updating the users store exactly when the normalized name is
one of them. -/
theorem c7_role_normalization (st : Stores) (u name role : String) :
    (jsNumberNotNaN role = true → roleHandle st u name role = (st, [])) ∧
    (jsNumberNotNaN role = false →
      (roleHandle st u name role).1.users =
        (if capitalize (lowerStr role) ∈ roleNames
         then st.users.set name
           { name := name,
             role := EnumVal.num (roleRank (capitalize (lowerStr role))) }
         else st.users)) := by
  constructor
  · intro h
    rw [roleHandle, if_pos h]
  · intro h
    rw [roleHandle, if_neg (by rw [h]; exact Bool.false_ne_true)]
    by_cases h1 : capitalize (lowerStr role) = "None"
    · rw [h1]
      simp [roleEnum, roleNames, roleRank]
    · by_cases h2 : capitalize (lowerStr role) = "User"
      · rw [h2]
        simp [roleEnum, roleNames, roleRank]
      · by_cases h3 : capitalize (lowerStr role) = "Editor"
        · rw [h3]
          simp [roleEnum, roleNames, roleRank]
        · by_cases h4 : capitalize (lowerStr role) = "Streamer"
          · rw [h4]
            simp [roleEnum, roleNames, roleRank]
          · by_cases h5 : capitalize (lowerStr role) = "0"
            · have hrole : role = "0" :=
                capitalize_lowerStr_digit role "0" (Or.inl rfl) h5
              rw [hrole] at h
              exact absurd h (by decide)
            · by_cases h6 : capitalize (lowerStr role) = "1"
              · have hrole : role = "1" :=
                  capitalize_lowerStr_digit role "1" (Or.inr (Or.inl rfl)) h6
                rw [hrole] at h
                exact absurd h (by decide)
              · by_cases h7 : capitalize (lowerStr role) = "2"
                · have hrole : role = "2" :=
                    capitalize_lowerStr_digit role "2" (Or.inr (Or.inr (Or.inl rfl))) h7
                  rw [hrole] at h
                  exact absurd h (by decide)
                · by_cases h8 : capitalize (lowerStr role) = "3"
                  · have hrole : role = "3" :=
                      capitalize_lowerStr_digit role "3" (Or.inr (Or.inr (Or.inr rfl))) h8
                    rw [hrole] at h
                    exact absurd h (by decide)
                  · have he : roleEnum (capitalize (lowerStr role)) = none := by
                      simp only [roleEnum, h1, h2, h3, h4, h5, h6, h7, h8, if_false]
                    simp only [he]
                    rw [if_neg (by simp [roleNames, h1, h2, h3, h4])]

/-- C7 (witness): the numeric string 12 is rejected, and editor is
normalized to Editor and accepted. -/
theorem c7_witness :
    (jsNumberNotNaN "12" = true ∧ roleHandle st0 "a" "b" "12" = (st0, [])) ∧
    (jsNumberNotNaN "editor" = false ∧
      (roleHandle st0 "a" "b" "editor").1.users =
        (if capitalize (lowerStr "editor") ∈ roleNames
         then st0.users.set "b"
           { name := "b",
             role := EnumVal.num (roleRank (capitalize (lowerStr "editor"))) }
         else st0.users)) :=
  ⟨⟨by decide, (c7_role_normalization st0 "a" "b" "12").1 (by decide)⟩,
   ⟨by decide, (c7_role_normalization st0 "a" "b" "editor").2 (by decide)⟩⟩

/-- C3 (counterexample): the role handler invoked with the unknown,
non-numeric role name fakerole performs no update (the stores are returned
unchanged) yet emits a log line, so failures are not always silent. -/
theorem c3_counterexample :
    (roleHandle st0 "streamer" "bob" "fakerole").1 = st0 ∧
    (roleHandle st0 "streamer" "bob" "fakerole").2 =
      ["streamer set role of bob to Fakerole"] ∧
    roleEnum (capitalize (lowerStr "fakerole")) = none := by
  refine ⟨rfl, by decide, by decide⟩

/-- C3 (amended): permission denials and routing misses aside, the
handlers log as follows: role logs nothing on numeric input but logs one
line for every other input, even when the role name is unknown; prefs
logs nothing for an unknown key but logs one line for a known key even
when the value keyword is unrecognized; alias rm logs one line even when
no alias existed; alias set, play and the cooldown operations log only on
success. -/
theorem c3_amended_logging (sounds : String → Bool) (al : Table String)
    (st : Stores) (cd : Table CooldownRecord) (ps : PlayerState) (which : Which)
    (u arg key value name role target sname dvalue : String) :
    (jsNumberNotNaN role = true → (roleHandle st u name role).2 = []) ∧
    (jsNumberNotNaN role = false → (roleHandle st u name role).2.length = 1) ∧
    (key ≠ "autoplay" → (prefsHandle st u key value).2 = []) ∧
    (prefsHandle st u "autoplay" value).2.length = 1 ∧
    (sounds (lowerStr target) = false →
      (aliasSetHandle sounds st u name target).2 = []) ∧
    (aliasRmHandle st u name).2.length = 1 ∧
    (sounds (resolveNoLower al (firstToken arg)) = false →
      (playHandle sounds al ps u arg).2.1 = []) ∧
    (sounds (resolveNoLower al sname) = false →
      (cooldownSetHandle sounds al cd which u sname dvalue).2 = [] ∧
      (cooldownRmHandle sounds al cd which u sname).2 = []) := by
  refine ⟨?_, ?_, ?_, ?_, ?_, ?_, ?_, ?_⟩
  · intro h
    rw [roleHandle, if_pos h]
  · intro h
    rw [roleHandle, if_neg (by rw [h]; exact Bool.false_ne_true)]
    rfl
  · intro h
    rw [prefsHandle, if_neg h]
  · rfl
  · intro h
    simp only [aliasSetHandle]
    rw [if_neg (by rw [h]; exact Bool.false_ne_true)]
  · rfl
  · intro h
    rw [playHandle]
    by_cases hp : ps.playing.isSome = true
    · rw [if_pos hp]
    · rw [if_neg hp]
      simp only
      rw [if_neg (by rw [h]; exact Bool.false_ne_true)]
  · intro h
    constructor
    · simp only [cooldownSetHandle]
      rw [if_neg (by rw [h]; exact Bool.false_ne_true)]
    · simp only [cooldownRmHandle]
      rw [if_neg (fun hc => Bool.false_ne_true (h ▸ hc.1))]

/-- C3 (witness for the amended theorem): each hypothesis discharged on a
concrete input. -/
theorem c3_amended_logging_witness :
    (jsNumberNotNaN "12" = true ∧ (roleHandle st0 "u" "x" "12").2 = []) ∧
    (jsNumberNotNaN "abc" = false ∧ (roleHandle st0 "u" "x" "abc").2.length = 1) ∧
    ("color" ≠ "autoplay" ∧ (prefsHandle st0 "u" "color" "maybe").2 = []) ∧
    (prefsHandle st0 "u" "autoplay" "maybe").2.length = 1 ∧
    (soundsFoo (lowerStr "bar") = false ∧
      (aliasSetHandle soundsFoo st0 "u" "x" "bar").2 = []) ∧
    (aliasRmHandle st0 "u" "x").2.length = 1 ∧
    (soundsFoo (resolveNoLower alEmpty (firstToken "bar")) = false ∧
      (playHandle soundsFoo alEmpty ⟨none⟩ "u" "bar").2.1 = []) ∧
    (soundsFoo (resolveNoLower alEmpty "bar") = false ∧
      (cooldownSetHandle soundsFoo alEmpty Table.empty Which.user "u" "bar" "1m").2 = [] ∧
      (cooldownRmHandle soundsFoo alEmpty Table.empty Which.user "u" "bar").2 = []) :=
  ⟨⟨by decide,
    (c3_amended_logging soundsFoo alEmpty st0 Table.empty ⟨none⟩ Which.user
      "u" "bar" "color" "maybe" "x" "12" "bar" "bar" "1m").1 (by decide)⟩,
   ⟨by decide,
    (c3_amended_logging soundsFoo alEmpty st0 Table.empty ⟨none⟩ Which.user
      "u" "bar" "color" "maybe" "x" "abc" "bar" "bar" "1m").2.1 (by decide)⟩,
   ⟨by decide,
    (c3_amended_logging soundsFoo alEmpty st0 Table.empty ⟨none⟩ Which.user
      "u" "bar" "color" "maybe" "x" "12" "bar" "bar" "1m").2.2.1 (by decide)⟩,
   (c3_amended_logging soundsFoo alEmpty st0 Table.empty ⟨none⟩ Which.user
      "u" "bar" "color" "maybe" "x" "12" "bar" "bar" "1m").2.2.2.1,
   ⟨by decide,
    (c3_amended_logging soundsFoo alEmpty st0 Table.empty ⟨none⟩ Which.user
      "u" "bar" "color" "maybe" "x" "12" "bar" "bar" "1m").2.2.2.2.1 (by decide)⟩,
   (c3_amended_logging soundsFoo alEmpty st0 Table.empty ⟨none⟩ Which.user
      "u" "bar" "color" "maybe" "x" "12" "bar" "bar" "1m").2.2.2.2.2.1,
   ⟨by decide,
    (c3_amended_logging soundsFoo alEmpty st0 Table.empty ⟨none⟩ Which.user
      "u" "bar" "color" "maybe" "x" "12" "bar" "bar" "1m").2.2.2.2.2.2.1 (by decide)⟩,
   ⟨by decide,
    (c3_amended_logging soundsFoo alEmpty st0 Table.empty ⟨none⟩ Which.user
      "u" "bar" "color" "maybe" "x" "12" "bar" "bar" "1m").2.2.2.2.2.2.2 (by decide)⟩⟩

/-- C5: semantically invalid arguments mutate no store: play with an
unknown resolved sound does nothing, prefs with an unknown key or an
unrecognized value keyword leaves the stores unchanged, role with a
numeric or unknown role name leaves the stores unchanged, and both
cooldown operations leave the table unchanged for unknown sounds. -/
theorem c5_rejection_no_mutation (sounds : String → Bool) (al : Table String)
    (st : Stores) (cd : Table CooldownRecord) (ps : PlayerState) (which : Which)
    (u arg key value name role sname : String) (millis : Nat) :
    (sounds (resolveNoLower al (firstToken arg)) = false →
      playHandle sounds al ps u arg = (ps, [], [])) ∧
    (key ≠ "autoplay" → prefsHandle st u key value = (st, [])) ∧
    (value ≠ "toggle" ∧ value ≠ "on" ∧ value ≠ "true" ∧ value ≠ "yes" ∧
      value ≠ "off" ∧ value ≠ "false" ∧ value ≠ "no" →
      (prefsHandle st u key value).1 = st) ∧
    (jsNumberNotNaN role = true → roleHandle st u name role = (st, [])) ∧
    (roleEnum (capitalize (lowerStr role)) = none →
      (roleHandle st u name role).1 = st) ∧
    (sounds (resolveNoLower al sname) = false →
      cooldownSet sounds al cd which sname millis = cd ∧
      cooldownRm sounds al cd which sname = cd) := by
  refine ⟨?_, ?_, ?_, ?_, ?_, ?_⟩
  · intro h
    rw [playHandle]
    by_cases hp : ps.playing.isSome = true
    · rw [if_pos hp]
    · rw [if_neg hp]
      simp only
      rw [if_neg (by rw [h]; exact Bool.false_ne_true)]
  · intro h
    rw [prefsHandle, if_neg h]
  · intro h
    obtain ⟨h1, h2, h3, h4, h5, h6, h7⟩ := h
    by_cases hk : key = "autoplay"
    · rw [prefsHandle, if_pos hk]
      simp only
      rw [if_neg h1, if_neg (by rintro (hc | hc | hc) <;> contradiction),
          if_neg (by rintro (hc | hc | hc) <;> contradiction)]
    · rw [prefsHandle, if_neg hk]
  · intro h
    rw [roleHandle, if_pos h]
  · intro h
    rw [roleHandle]
    by_cases hn : jsNumberNotNaN role = true
    · rw [if_pos hn]
    · rw [if_neg hn]
      simp only [h]
  · intro h
    constructor
    · rw [cooldownSet]
      simp only [h, Bool.false_eq_true, if_false]
    · rw [cooldownRm]
      simp only [h, Bool.false_eq_true, if_false]

/-- C5 (witness): each rejection hypothesis discharged on a concrete
input. -/
theorem c5_witness :
    (soundsFoo (resolveNoLower alEmpty (firstToken "bar")) = false ∧
      playHandle soundsFoo alEmpty ⟨none⟩ "u" "bar" = (⟨none⟩, [], [])) ∧
    ("color" ≠ "autoplay" ∧ prefsHandle st0 "u" "color" "maybe" = (st0, [])) ∧
    (("maybe" ≠ "toggle" ∧ "maybe" ≠ "on" ∧ "maybe" ≠ "true" ∧ "maybe" ≠ "yes" ∧
      "maybe" ≠ "off" ∧ "maybe" ≠ "false" ∧ "maybe" ≠ "no") ∧
      (prefsHandle st0 "u" "color" "maybe").1 = st0) ∧
    (jsNumberNotNaN "7" = true ∧ roleHandle st0 "u" "x" "7" = (st0, [])) ∧
    (roleEnum (capitalize (lowerStr "fakerole")) = none ∧
      (roleHandle st0 "u" "x" "fakerole").1 = st0) ∧
    (soundsFoo (resolveNoLower alEmpty "bar") = false ∧
      cooldownSet soundsFoo alEmpty cdFoo Which.sound "bar" 3 = cdFoo ∧
      cooldownRm soundsFoo alEmpty cdFoo Which.sound "bar" = cdFoo) :=
  ⟨⟨by decide,
    (c5_rejection_no_mutation soundsFoo alEmpty st0 cdFoo ⟨none⟩ Which.sound
      "u" "bar" "color" "maybe" "x" "7" "bar" 3).1 (by decide)⟩,
   ⟨by decide,
    (c5_rejection_no_mutation soundsFoo alEmpty st0 cdFoo ⟨none⟩ Which.sound
      "u" "bar" "color" "maybe" "x" "7" "bar" 3).2.1 (by decide)⟩,
   ⟨⟨by decide, by decide, by decide, by decide, by decide, by decide, by decide⟩,
    (c5_rejection_no_mutation soundsFoo alEmpty st0 cdFoo ⟨none⟩ Which.sound
      "u" "bar" "color" "maybe" "x" "7" "bar" 3).2.2.1
      ⟨by decide, by decide, by decide, by decide, by decide, by decide, by decide⟩⟩,
   ⟨by decide,
    (c5_rejection_no_mutation soundsFoo alEmpty st0 cdFoo ⟨none⟩ Which.sound
      "u" "bar" "color" "maybe" "x" "7" "bar" 3).2.2.2.1 (by decide)⟩,
   ⟨by decide,
    (c5_rejection_no_mutation soundsFoo alEmpty st0 cdFoo ⟨none⟩ Which.sound
      "u" "bar" "color" "maybe" "x" "fakerole" "bar" 3).2.2.2.2.1 (by decide)⟩,
   ⟨by decide,
    (c5_rejection_no_mutation soundsFoo alEmpty st0 cdFoo ⟨none⟩ Which.sound
      "u" "bar" "color" "maybe" "x" "7" "bar" 3).2.2.2.2.2 (by decide)⟩⟩

/-- C8 (counterexample): with the alias table mapping sss to foo and foo
the only known sound, the name SSS resolves to foo under the lowercasing
spec resolver, but the cooldown set operation looks SSS up without
lowercasing, finds no alias and no sound, and leaves the empty table
empty, while the play handler on the same input does resolve and play
foo; so resolution does not lowercase at every call site. -/
theorem c8_counterexample :
    resolveSpec al1 "SSS" = "foo" ∧
    resolveNoLower al1 "SSS" = "SSS" ∧
    cooldownSet soundsFoo al1 Table.empty Which.user "SSS" 5000 "foo" = none ∧
    cooldownSet soundsFoo al1 Table.empty Which.user "SSS" 5000 "SSS" = none ∧
    playHandle soundsFoo al1 ⟨none⟩ "u" "SSS" =
      (⟨some "foo"⟩, ["u played foo"], [("foo", "u")]) := by
  refine ⟨by decide, by decide, by decide, by decide, by decide⟩

/-- C8 (amended): resolution returns any name that is not a key
unchanged, so it is idempotent on canonical names; the play call site
lowercases its argument before resolving, agreeing with the spec
resolver, while both cooldown call sites resolve the raw name without
lowercasing and key the table update on that raw resolution. -/
theorem c8_amended_resolution (sounds : String → Bool) (al : Table String)
    (cd : Table CooldownRecord) (which : Which) (millis : Nat)
    (canonical name arg u : String)
    (hc : al canonical = none)
    (hs : sounds (resolveNoLower al name) = true)
    (hp : sounds (resolveNoLower al (firstToken arg)) = true) :
    resolveNoLower al canonical = canonical ∧
    resolveSpec al canonical = resolveNoLower al (lowerStr canonical) ∧
    cooldownSet sounds al cd which name millis (resolveNoLower al name) =
      some (setRecord which millis (cd (resolveNoLower al name))) ∧
    playHandle sounds al ⟨none⟩ u arg =
      (⟨some (resolveNoLower al (firstToken arg))⟩,
       [u ++ " played " ++ resolveNoLower al (firstToken arg)],
       [(resolveNoLower al (firstToken arg), u)]) := by
  refine ⟨?_, rfl, ?_, ?_⟩
  · rw [resolveNoLower, hc]
  · rw [cooldownSet]
    simp only [hs, if_true]
    rw [Table.set, if_pos rfl]
  · rw [playHandle]
    rw [if_neg (by decide)]
    simp only
    rw [if_pos hp]

/-- C8 (witness for the amended theorem): instantiated with the alias
table mapping sss to foo, canonical name foo, raw name sss and play
argument SSS. -/
theorem c8_amended_resolution_witness :
    (al1 "foo" = none ∧
     soundsFoo (resolveNoLower al1 "sss") = true ∧
     soundsFoo (resolveNoLower al1 (firstToken "SSS")) = true) ∧
    resolveNoLower al1 "foo" = "foo" ∧
    cooldownSet soundsFoo al1 Table.empty Which.user "sss" 5 (resolveNoLower al1 "sss") =
      some (setRecord Which.user 5 (Table.empty (resolveNoLower al1 "sss"))) ∧
    playHandle soundsFoo al1 ⟨none⟩ "u" "SSS" =
      (⟨some (resolveNoLower al1 (firstToken "SSS"))⟩,
       ["u" ++ " played " ++ resolveNoLower al1 (firstToken "SSS")],
       [(resolveNoLower al1 (firstToken "SSS"), "u")]) :=
  ⟨⟨by decide, by decide, by decide⟩,
   (c8_amended_resolution soundsFoo al1 Table.empty Which.user 5 "foo" "sss" "SSS" "u"
     (by decide) (by decide) (by decide)).1,
   (c8_amended_resolution soundsFoo al1 Table.empty Which.user 5 "foo" "sss" "SSS" "u"
     (by decide) (by decide) (by decide)).2.2.1,
   (c8_amended_resolution soundsFoo al1 Table.empty Which.user 5 "foo" "sss" "SSS" "u"
     (by decide) (by decide) (by decide)).2.2.2⟩

/-- Helper: from a busy player state every play request is ignored. -/
theorem runPlays_busy (sounds : String → Bool) (al : Table String)
    (s0 : String) (reqs : List (String × String)) :
    runPlays sounds al ⟨some s0⟩ reqs = (⟨some s0⟩, 0) := by
  induction reqs with
  | nil => rfl
  | cons r rest ih =>
    obtain ⟨u, a⟩ := r
    rw [runPlays]
    simp [playHandle, ih]

/-- Helper: at most one play call results from any request sequence. -/
theorem runPlays_le_one (sounds : String → Bool) (al : Table String)
    (reqs : List (String × String)) :
    ∀ ps, (runPlays sounds al ps reqs).2 ≤ 1 := by
  induction reqs with
  | nil =>
    intro ps
    simp [runPlays]
  | cons r rest ih =>
    intro ps
    obtain ⟨op⟩ := ps
    obtain ⟨u, a⟩ := r
    cases op with
    | some s0 =>
      rw [runPlays_busy]
      exact Nat.zero_le 1
    | none =>
      rw [runPlays]
      simp only [playHandle, Option.isSome_none, Bool.false_eq_true, if_false]
      by_cases hs : sounds (resolveNoLower al (firstToken a)) = true
      · rw [if_pos hs]
        simp only
        rw [runPlays_busy]
        simp
      · rw [if_neg hs]
        simp only
        have hrest := ih ⟨none⟩
        simpa using hrest

/-- C9: while a sound is playing every play request is ignored and
Player.play is not invoked; while nothing is playing a stop request is
ignored and Player.stop is not invoked; any sequence of play requests
makes at most one Player.play call, and none at all from a busy start. -/
theorem c9_busy_flag (sounds : String → Bool) (al : Table String)
    (s0 u arg : String) (ps : PlayerState) (reqs : List (String × String)) :
    playHandle sounds al ⟨some s0⟩ u arg = (⟨some s0⟩, [], []) ∧
    stopHandle ⟨none⟩ u = (⟨none⟩, [], false) ∧
    (runPlays sounds al ps reqs).2 ≤ 1 ∧
    (runPlays sounds al ⟨some s0⟩ reqs).2 = 0 := by
  refine ⟨?_, rfl, runPlays_le_one sounds al reqs ps, ?_⟩
  · simp [playHandle]
  · rw [runPlays_busy]

/-- C10: with no channel identifier the storeKey helper returns the same
literal for every key name, so all five stores are registered under one
identical key instead of distinct namespaced keys. -/
theorem c10_store_key_collision (k : String) :
    storeKey k none = "[[empty]]" ∧
    pfxStoreKey none = "[[empty]]" ∧
    usersStoreKey none = "[[empty]]" ∧
    prefsStoreKey none = "[[empty]]" ∧
    aliasesStoreKey none = "[[empty]]" ∧
    cooldownsStoreKey none = "[[empty]]" :=
  ⟨rfl, rfl, rfl, rfl, rfl, rfl⟩
